import Mathlib

/-!
Verification of the thermal sizing engine of the `design-electronics`
repository (the `HeatSinkCalculator` component with natural/forced
convection, per-field validation and optional air velocity).

The embedding follows the source closely:

* `Input` mirrors the `HeatSinkInputs` interface (the `airVelocity?`
  field is optional there and is therefore an `Option`).
* Input values are parsed decimal numbers; they are modelled as `ℚ` so
  that the validation pass is decidable.  The numeric pipeline casts
  them to `ℝ` and models JavaScript double arithmetic by exact real
  arithmetic, with `Math.pow` modelled by `Real.rpow`.
* `validateInput` mirrors the `switch` in the source `validateInput`
  (including the early `return`s: a warning-severity result returns
  before the later error checks are reached).
* `validateAllInputs` mirrors the iteration over all number-typed
  fields (an absent `airVelocity` is skipped, exactly as the
  `typeof inputs[field] === "number"` test skips it) and succeeds iff
  no field reports an error-severity violation.
* `calculateHeatSink` returns `none` when validation fails (the source
  shows a toast and returns without results) and otherwise the result
  record built by the straight-line numeric code.
-/

namespace HeatSink

inductive ConvectionType where
  | natural
  | forced
deriving DecidableEq, Repr

/-- Mirror of the `HeatSinkInputs` interface: all numeric fields are
parsed decimal numbers, `airVelocity` is optional (`airVelocity?: number`). -/
structure Input where
  ambientTemp : ℚ
  maxSurfaceTemp : ℚ
  power : ℚ
  length : ℚ
  height : ℚ
  finThickness : ℚ
  baseThickness : ℚ
  emissivity : ℚ
  material : String
  convectionType : ConvectionType
  airVelocity : Option ℚ
deriving DecidableEq, Repr

inductive Severity where
  | info
  | warning
  | error
deriving DecidableEq, Repr

/-- Mirror of the `ValidationResult` interface (the human-readable
message is irrelevant to control flow and is omitted). -/
structure ValidationResult where
  isValid : Bool
  severity : Severity
deriving DecidableEq, Repr

/-- The numeric field names of `HeatSinkInputs` that the validation
loop can visit. -/
inductive FieldName where
  | ambientTemp
  | maxSurfaceTemp
  | power
  | length
  | height
  | finThickness
  | baseThickness
  | emissivity
  | airVelocity
deriving DecidableEq, Repr

/-- Mirror of the source `validateInput(field, value)` switch.  Each
branch reproduces the nested `if`s of the source, including the early
returns: an out-of-range warning is returned before the cross-field
error checks are evaluated. -/
def validateInput (inputs : Input) : FieldName → ℚ → ValidationResult
  | .ambientTemp, value =>
      if value < -40 ∨ value > 60 then ⟨false, .warning⟩
      else if value ≥ inputs.maxSurfaceTemp then ⟨false, .error⟩
      else ⟨true, .info⟩
  | .maxSurfaceTemp, value =>
      if value < 0 ∨ value > 200 then ⟨false, .warning⟩
      else if value ≤ inputs.ambientTemp then ⟨false, .error⟩
      else ⟨true, .info⟩
  | .power, value =>
      if value ≤ 0 then ⟨false, .error⟩
      else if value > 1000 then ⟨false, .warning⟩
      else ⟨true, .info⟩
  | .emissivity, value =>
      if value < 0 ∨ value > 1 then ⟨false, .error⟩
      else if value < mkRat 1 10 then ⟨false, .warning⟩
      else ⟨true, .info⟩
  | .length, value =>
      if value ≤ 0 then ⟨false, .error⟩
      else if value > 500 then ⟨false, .warning⟩
      else ⟨true, .info⟩
  | .height, value =>
      if value ≤ 0 then ⟨false, .error⟩
      else if value > 500 then ⟨false, .warning⟩
      else ⟨true, .info⟩
  | .finThickness, value =>
      if value ≤ 0 then ⟨false, .error⟩
      else if value < 1 then ⟨false, .warning⟩
      else if value > 10 then ⟨false, .warning⟩
      else ⟨true, .info⟩
  | .baseThickness, value =>
      if value ≤ 0 then ⟨false, .error⟩
      else if value < 2 then ⟨false, .warning⟩
      else ⟨true, .info⟩
  | .airVelocity, value =>
      if inputs.convectionType = .forced then
        if value ≤ 0 then ⟨false, .error⟩
        else if value > 50 then ⟨false, .warning⟩
        else ⟨true, .info⟩
      else ⟨true, .info⟩

/-- The `(field, value)` pairs visited by `validateAllInputs`: every
field of the record whose value is a number.  An absent `airVelocity`
fails the `typeof inputs[field] === "number"` test and is skipped. -/
def numericFieldValues (i : Input) : List (FieldName × ℚ) :=
  [(.ambientTemp, i.ambientTemp), (.maxSurfaceTemp, i.maxSurfaceTemp),
   (.power, i.power), (.length, i.length), (.height, i.height),
   (.finThickness, i.finThickness), (.baseThickness, i.baseThickness),
   (.emissivity, i.emissivity)] ++
  (match i.airVelocity with
   | some v => [(.airVelocity, v)]
   | none => [])

/-- Mirror of `validateAllInputs`: run `validateInput` on every numeric
field and succeed iff no field is invalid with error severity. -/
def validateAllInputs (i : Input) : Bool :=
  !((numericFieldValues i).any fun fv =>
      !(validateInput i fv.1 fv.2).isValid &&
        decide ((validateInput i fv.1 fv.2).severity = .error))

noncomputable section

/-- Temperature difference `deltaT = maxSurfaceTemp - ambientTemp` (°C). -/
def deltaT (i : Input) : ℝ := (i.maxSurfaceTemp : ℝ) - (i.ambientTemp : ℝ)

/-- Surface temperature in Kelvin. -/
def Ts (i : Input) : ℝ := (i.maxSurfaceTemp : ℝ) + 273.15

/-- Ambient temperature in Kelvin. -/
def Tamb (i : Input) : ℝ := (i.ambientTemp : ℝ) + 273.15

/-- Average temperature in Kelvin. -/
def Tavg (i : Input) : ℝ := (Ts i + Tamb i) / 2

/-- Gravity constant (m/s²). -/
def g : ℝ := 9.81

/-- Thermal expansion coefficient `beta = 1 / Tavg` (1/K). -/
def beta (i : Input) : ℝ := 1 / Tavg i

/-- Kinematic viscosity of air (m²/s). -/
def nu : ℝ := 1.568e-5

/-- Thermal diffusivity of air (m²/s). -/
def alpha : ℝ := 2.2e-5

/-- Thermal conductivity of air (W/m·K). -/
def k : ℝ := 0.0263

/-- Stefan-Boltzmann constant. -/
def sigma : ℝ := 5.67e-8

/-- Length in meters. -/
def L (i : Input) : ℝ := (i.length : ℝ) / 1000

/-- Height in meters. -/
def H (i : Input) : ℝ := (i.height : ℝ) / 1000

/-- Fin thickness in meters. -/
def t (i : Input) : ℝ := (i.finThickness : ℝ) / 1000

/-- Base thickness in meters. -/
def b (i : Input) : ℝ := (i.baseThickness : ℝ) / 1000

/-- Optimal fin spacing (source: ` sopt = 2.71 * Math.pow((g * beta * deltaT) / (L * alpha * nu), -0.25)`). -/
def sopt (i : Input) : ℝ :=
  2.71 * (g * beta i * deltaT i / (L i * alpha * nu)) ^ (-0.25 : ℝ)

/-- The spacing in millimeters (`const spacing = sopt * 1000`), before
the final rounding applied to the returned record. -/
def spacingMm (i : Input) : ℝ := sopt i * 1000

/-- Effective air velocity used by the forced-convection branch:
`inputs.airVelocity || 1.0` evaluates to `1.0` when `airVelocity` is
`undefined` or `0` (both are falsy), and to the value otherwise. -/
def effectiveAirVelocity (i : Input) : ℚ :=
  match i.airVelocity with
  | none => 1
  | some v => if v = 0 then 1 else v

/-- Reynolds number of the forced external flow. -/
def Re (i : Input) : ℝ := (effectiveAirVelocity i : ℝ) * L i / nu

/-- Prandtl number `Pr = nu / alpha`. -/
def Pr : ℝ := nu / alpha

/-- Hydraulic diameter of the inter-fin channel. -/
def Dh (i : Input) : ℝ := 4 * sopt i * H i / (2 * (sopt i + H i))

/-- Channel Reynolds number of the forced internal flow. -/
def ReChannel (i : Input) : ℝ := (effectiveAirVelocity i : ℝ) * Dh i / nu

/-- External heat transfer coefficient, branching on the convection type. -/
def h1 (i : Input) : ℝ :=
  match i.convectionType with
  | .natural => 1.42 * (deltaT i / L i) ^ (0.25 : ℝ)
  | .forced => k / L i * 0.664 * Re i ^ (0.5 : ℝ) * Pr ^ (0.33 : ℝ)

/-- Internal (between-fins) heat transfer coefficient, branching on the
convection type. -/
def h2 (i : Input) : ℝ :=
  match i.convectionType with
  | .natural => 1.31 * k / sopt i
  | .forced => k / Dh i * 0.023 * ReChannel i ^ (0.8 : ℝ) * Pr ^ (0.4 : ℝ)

/-- External side surface area `A1 = H*L + t*(2*H + L)`. -/
def A1 (i : Input) : ℝ := H i * L i + t i * (2 * H i + L i)

/-- Internal fin surface area
`A2 = L*(2*(H - b) + sopt) + 2*(t*H + sopt*b) + t*L`. -/
def A2 (i : Input) : ℝ :=
  L i * (2 * (H i - b i) + sopt i) + 2 * (t i * H i + sopt i * b i) + t i * L i

/-- Apparent radiation area `Ar2 = L*(t + sopt) + 2*(t*H + sopt*b)`. -/
def Ar2 (i : Input) : ℝ :=
  L i * (t i + sopt i) + 2 * (t i * H i + sopt i * b i)

/-- External convection heat flow `Qc1 = 2*h1*A1*deltaT`. -/
def Qc1 (i : Input) : ℝ := 2 * h1 i * A1 i * deltaT i

/-- External radiation heat flow
`Qr1 = 2*emissivity*sigma*A1*(Ts^4 - Tamb^4)`. -/
def Qr1 (i : Input) : ℝ :=
  2 * (i.emissivity : ℝ) * sigma * A1 i * (Ts i ^ (4 : ℕ) - Tamb i ^ (4 : ℕ))

/-- Internal convection heat flow per fin gap `Qc2 = h2*A2*deltaT`. -/
def Qc2 (i : Input) : ℝ := h2 i * A2 i * deltaT i

/-- Internal radiation heat flow per fin gap
`Qr2 = emissivity*sigma*Ar2*(Ts^4 - Tamb^4)`. -/
def Qr2 (i : Input) : ℝ :=
  (i.emissivity : ℝ) * sigma * Ar2 i * (Ts i ^ (4 : ℕ) - Tamb i ^ (4 : ℕ))

/-- Required fin count (source:
`Math.max(1, Math.ceil(1 + (inputs.power - Qr1 - Qc1) / (Qr2 + Qc2)))`). -/
def numberOfFins (i : Input) : ℤ :=
  max 1 ⌈1 + ((i.power : ℝ) - Qr1 i - Qc1 i) / (Qr2 i + Qc2 i)⌉

/-- Heat sink width in millimeters, before rounding (source:
`(numberOfFins - 1) * spacing + numberOfFins * inputs.finThickness`). -/
def widthMm (i : Input) : ℝ :=
  ((numberOfFins i : ℝ) - 1) * spacingMm i +
    (numberOfFins i : ℝ) * (i.finThickness : ℝ)

/-- One-decimal rounding used on the returned record:
`Math.round(x * 10) / 10` (JavaScript `Math.round` is half-up, which is
exactly Mathlib's `round`). -/
def round1 (x : ℝ) : ℝ := (round (x * 10) : ℤ) / 10

/-- Mirror of the `HeatSinkResults` interface. -/
structure Result where
  width : ℝ
  spacing : ℝ
  numberOfFins : ℤ

/-- The result record built by the straight-line numeric code
(`setResults({ width: Math.round(width*10)/10, spacing: Math.round(spacing*10)/10, numberOfFins })`). -/
def computeRaw (i : Input) : Result :=
  ⟨round1 (widthMm i), round1 (spacingMm i), numberOfFins i⟩

/-- Mirror of `calculateHeatSink`: if `validateAllInputs` reports an
error-severity violation the function shows a toast and returns without
producing results (`none`); otherwise the straight-line numeric block
runs to completion (none of its operations can throw) and the rounded
result record is produced. -/
def calculateHeatSink (i : Input) : Option Result :=
  if validateAllInputs i then some (computeRaw i) else none

end

/-- Concrete scenario A of the specification: natural convection with
the component's default inputs (`emissivity` 0.82 is the Aluminum 6061
table value, written as the exact decimal). -/
def scenarioA : Input :=
  { ambientTemp := 25, maxSurfaceTemp := 85, power := 10, length := 50,
    height := 25, finThickness := 2, baseThickness := 3,
    emissivity := mkRat 82 100, material := "Aluminum 6061",
    convectionType := .natural, airVelocity := some 1 }

/-- Concrete scenario B: scenario A with forced convection at 2.0 m/s. -/
def scenarioB : Input :=
  { scenarioA with convectionType := .forced, airVelocity := some 2 }

/-- An input with `deltaT = -50 ≤ 0` on which every validation branch
reports at most a warning: both temperatures are outside their typical
ranges, so the out-of-range warning returns are taken before the
cross-field temperature-order error checks. -/
def badC2 : Input :=
  { scenarioA with ambientTemp := 300, maxSurfaceTemp := 250 }

/-- An input passing validation whose internal-gap area `A2` is
negative (`baseThickness` far exceeds `height`; the code never compares
the two), driving `Qc2 + Qr2` below zero. -/
def cexC8 : Input := { scenarioA with height := 1, baseThickness := 400 }

/-- A forced-convection input whose optional `airVelocity` is absent:
the validation loop only visits number-typed fields, so the missing
velocity is never checked. -/
def cexC9 : Input :=
  { scenarioA with convectionType := .forced, airVelocity := none }

/-- A forced-convection input with `airVelocity = 0`. -/
def cexC9v0 : Input :=
  { scenarioA with convectionType := .forced, airVelocity := some 0 }

/-! ### Generic bounding lemmas for real powers -/

/-- Lower-bound a rational power `x ^ (m/n)` by checking a pure rational
inequality against a lower bound `c` of the base. -/
lemma lt_rpow_div {x lo c : ℝ} (m n : ℕ) (hn : n ≠ 0) (hlo : 0 ≤ lo)
    (hc : 0 ≤ c) (hcx : c ≤ x) (h : lo ^ n < c ^ m) :
    lo < x ^ ((m : ℝ) / (n : ℝ)) := by
  have hx : 0 ≤ x := hc.trans hcx
  have hnpos : (0 : ℝ) < ((n : ℕ) : ℝ)⁻¹ := by
    have : (0 : ℝ) < (n : ℝ) := by exact_mod_cast Nat.pos_of_ne_zero hn
    exact inv_pos.mpr this
  have hcm : c ^ m ≤ x ^ m := pow_le_pow_left₀ hc hcx m
  have h2 : lo ^ n < x ^ m := lt_of_lt_of_le h hcm
  have h3 : (lo ^ n : ℝ) ^ (((n : ℕ) : ℝ))⁻¹ < (x ^ m) ^ (((n : ℕ) : ℝ))⁻¹ :=
    Real.rpow_lt_rpow (pow_nonneg hlo n) h2 hnpos
  rw [Real.pow_rpow_inv_natCast hlo hn] at h3
  rwa [← Real.rpow_natCast x m, ← Real.rpow_mul hx, ← div_eq_mul_inv] at h3

/-- Upper-bound a rational power `x ^ (m/n)` by checking a pure rational
inequality against an upper bound `c` of the base. -/
lemma rpow_div_lt {x hi c : ℝ} (m n : ℕ) (hn : n ≠ 0) (hx : 0 ≤ x)
    (hhi : 0 ≤ hi) (hxc : x ≤ c) (h : c ^ m < hi ^ n) :
    x ^ ((m : ℝ) / (n : ℝ)) < hi := by
  have hnpos : (0 : ℝ) < ((n : ℕ) : ℝ)⁻¹ := by
    have : (0 : ℝ) < (n : ℝ) := by exact_mod_cast Nat.pos_of_ne_zero hn
    exact inv_pos.mpr this
  have hcm : x ^ m ≤ c ^ m := pow_le_pow_left₀ hx hxc m
  have h2 : x ^ m < hi ^ n := lt_of_le_of_lt hcm h
  have h3 : (x ^ m : ℝ) ^ (((n : ℕ) : ℝ))⁻¹ < (hi ^ n) ^ (((n : ℕ) : ℝ))⁻¹ :=
    Real.rpow_lt_rpow (pow_nonneg hx m) h2 hnpos
  rw [Real.pow_rpow_inv_natCast hhi hn] at h3
  rwa [← Real.rpow_natCast x m, ← Real.rpow_mul hx, ← div_eq_mul_inv] at h3

/-- One-decimal rounding is idempotent. -/
lemma round1_idem (x : ℝ) : round1 (round1 x) = round1 x := by
  unfold round1
  rw [div_mul_cancel₀ _ (by norm_num : (10 : ℝ) ≠ 0), round_intCast]

/-- Interval bounds for a three-factor product of nonnegative reals. -/
lemma prod3_bounds (x₁ x₂ x₃ l₁ l₂ l₃ u₁ u₂ u₃ : ℝ)
    (hl₁ : 0 ≤ l₁) (hl₂ : 0 ≤ l₂) (hl₃ : 0 ≤ l₃)
    (h₁ : l₁ ≤ x₁) (h₂ : l₂ ≤ x₂) (h₃ : l₃ ≤ x₃)
    (h₁u : x₁ ≤ u₁) (h₂u : x₂ ≤ u₂) (h₃u : x₃ ≤ u₃) :
    l₁ * l₂ * l₃ ≤ x₁ * x₂ * x₃ ∧ x₁ * x₂ * x₃ ≤ u₁ * u₂ * u₃ := by
  have hx₁ : 0 ≤ x₁ := hl₁.trans h₁
  have hx₂ : 0 ≤ x₂ := hl₂.trans h₂
  have hx₃ : 0 ≤ x₃ := hl₃.trans h₃
  constructor
  · exact mul_le_mul (mul_le_mul h₁ h₂ hl₂ hx₁) h₃ hl₃ (mul_nonneg hx₁ hx₂)
  · exact mul_le_mul (mul_le_mul h₁u h₂u hx₂ (hx₁.trans h₁u)) h₃u hx₃
      (mul_nonneg (hx₁.trans h₁u) (hx₂.trans h₂u))

/-! ### Consequences of a successful validation pass -/


lemma validateAllInputs_no_error (i : Input) (hv : validateAllInputs i = true) :
    ∀ fv ∈ numericFieldValues i,
      (validateInput i fv.1 fv.2).isValid = true ∨
        ¬(validateInput i fv.1 fv.2).severity = Severity.error := by
  intro fv hmem
  rw [validateAllInputs, Bool.not_eq_true'] at hv
  have h := (List.any_eq_false.mp hv) fv hmem
  simp only [Bool.and_eq_true, Bool.not_eq_true', decide_eq_true_eq, not_and] at h
  by_cases hval : (validateInput i fv.1 fv.2).isValid = true
  · exact Or.inl hval
  · exact Or.inr (h (Bool.not_eq_true _ ▸ Bool.eq_false_iff.mpr hval))

lemma validate_power_pos (i : Input) (hv : validateAllInputs i = true) :
    0 < i.power := by
  have h := validateAllInputs_no_error i hv (.power, i.power)
    (by simp [numericFieldValues])
  by_contra hp
  push_neg at hp
  simp [validateInput, if_pos hp] at h

lemma validate_length_pos (i : Input) (hv : validateAllInputs i = true) :
    0 < i.length := by
  have h := validateAllInputs_no_error i hv (.length, i.length)
    (by simp [numericFieldValues])
  by_contra hp
  push_neg at hp
  simp [validateInput, if_pos hp] at h

lemma validate_height_pos (i : Input) (hv : validateAllInputs i = true) :
    0 < i.height := by
  have h := validateAllInputs_no_error i hv (.height, i.height)
    (by simp [numericFieldValues])
  by_contra hp
  push_neg at hp
  simp [validateInput, if_pos hp] at h

lemma validate_finThickness_pos (i : Input) (hv : validateAllInputs i = true) :
    0 < i.finThickness := by
  have h := validateAllInputs_no_error i hv (.finThickness, i.finThickness)
    (by simp [numericFieldValues])
  by_contra hp
  push_neg at hp
  simp [validateInput, if_pos hp] at h

lemma validate_baseThickness_pos (i : Input) (hv : validateAllInputs i = true) :
    0 < i.baseThickness := by
  have h := validateAllInputs_no_error i hv (.baseThickness, i.baseThickness)
    (by simp [numericFieldValues])
  by_contra hp
  push_neg at hp
  simp [validateInput, if_pos hp] at h

lemma validate_emissivity_mem (i : Input) (hv : validateAllInputs i = true) :
    0 ≤ i.emissivity ∧ i.emissivity ≤ 1 := by
  have h := validateAllInputs_no_error i hv (.emissivity, i.emissivity)
    (by simp [numericFieldValues])
  by_contra hp
  rw [not_and_or] at hp
  push_neg at hp
  have hcond : i.emissivity < 0 ∨ i.emissivity > 1 := by
    rcases hp with hp | hp
    · exact Or.inl hp
    · exact Or.inr hp
  simp [validateInput, if_pos hcond] at h

lemma validate_airVelocity_pos (i : Input) (v : ℚ)
    (hv : validateAllInputs i = true) (hav : i.airVelocity = some v)
    (hf : i.convectionType = .forced) : 0 < v := by
  have h := validateAllInputs_no_error i hv (.airVelocity, v)
    (by simp [numericFieldValues, hav])
  by_contra hp
  push_neg at hp
  simp [validateInput, hf, if_pos hp] at h

/-! ### Positivity of the pipeline quantities on physically valid inputs

The hypotheses used throughout are: the input passes validation, the
temperatures are ordered (`ambientTemp < maxSurfaceTemp`), the ambient
temperature is above absolute zero, and the height exceeds the base
thickness (all invariants of the specification's data model). -/

lemma deltaT_pos (i : Input) (hT : i.ambientTemp < i.maxSurfaceTemp) :
    0 < deltaT i := by
  have : (i.ambientTemp : ℝ) < (i.maxSurfaceTemp : ℝ) := by exact_mod_cast hT
  simpa [deltaT] using sub_pos.mpr this

lemma Tamb_pos (i : Input) (hTa : -(mkRat 27315 100) < i.ambientTemp) :
    0 < Tamb i := by
  have h : (-(mkRat 27315 100) : ℚ) < i.ambientTemp := hTa
  have h2 : ((-(mkRat 27315 100) : ℚ) : ℝ) < (i.ambientTemp : ℝ) := by
    exact_mod_cast h
  have h3 : ((-(mkRat 27315 100) : ℚ) : ℝ) = -273.15 := by
    norm_num [mkRat, Rat.normalize]
  rw [h3] at h2
  simp only [Tamb]
  linarith

lemma Ts_pos (i : Input) (hT : i.ambientTemp < i.maxSurfaceTemp)
    (hTa : -(mkRat 27315 100) < i.ambientTemp) : 0 < Ts i := by
  have h1 := Tamb_pos i hTa
  have h2 := deltaT_pos i hT
  have : Ts i = Tamb i + deltaT i := by
    simp only [Ts, Tamb, deltaT]; ring
  rw [this]; linarith

lemma Tamb_lt_Ts (i : Input) (hT : i.ambientTemp < i.maxSurfaceTemp) :
    Tamb i < Ts i := by
  have h2 := deltaT_pos i hT
  have : Ts i = Tamb i + deltaT i := by
    simp only [Ts, Tamb, deltaT]; ring
  rw [this]; linarith

lemma Tavg_pos (i : Input) (hT : i.ambientTemp < i.maxSurfaceTemp)
    (hTa : -(mkRat 27315 100) < i.ambientTemp) : 0 < Tavg i := by
  have h1 := Tamb_pos i hTa
  have h2 := Ts_pos i hT hTa
  simp only [Tavg]; linarith

lemma L_pos (i : Input) (hL : 0 < i.length) : 0 < L i := by
  have : (0 : ℝ) < (i.length : ℝ) := by exact_mod_cast hL
  simp only [L]; linarith

lemma H_pos (i : Input) (hH : 0 < i.height) : 0 < H i := by
  have : (0 : ℝ) < (i.height : ℝ) := by exact_mod_cast hH
  simp only [H]; linarith

lemma t_pos (i : Input) (ht : 0 < i.finThickness) : 0 < t i := by
  have : (0 : ℝ) < (i.finThickness : ℝ) := by exact_mod_cast ht
  simp only [t]; linarith

lemma b_pos (i : Input) (hb : 0 < i.baseThickness) : 0 < b i := by
  have : (0 : ℝ) < (i.baseThickness : ℝ) := by exact_mod_cast hb
  simp only [b]; linarith

lemma b_lt_H (i : Input) (hbh : i.baseThickness < i.height) : b i < H i := by
  have : (i.baseThickness : ℝ) < (i.height : ℝ) := by exact_mod_cast hbh
  simp only [b, H]; linarith

lemma soptBase_pos (i : Input) (hT : i.ambientTemp < i.maxSurfaceTemp)
    (hTa : -(mkRat 27315 100) < i.ambientTemp) (hL : 0 < i.length) :
    0 < g * beta i * deltaT i / (L i * alpha * nu) := by
  have h1 := deltaT_pos i hT
  have h2 := Tavg_pos i hT hTa
  have h3 := L_pos i hL
  have hg : (0 : ℝ) < g := by norm_num [g]
  have hbeta : 0 < beta i := by
    simp only [beta]; positivity
  have halpha : (0 : ℝ) < alpha := by norm_num [alpha]
  have hnu : (0 : ℝ) < nu := by norm_num [nu]
  positivity

lemma sopt_pos (i : Input) (hT : i.ambientTemp < i.maxSurfaceTemp)
    (hTa : -(mkRat 27315 100) < i.ambientTemp) (hL : 0 < i.length) :
    0 < sopt i := by
  have h := soptBase_pos i hT hTa hL
  simp only [sopt]
  have := Real.rpow_pos_of_pos h (-0.25 : ℝ)
  linarith

lemma effectiveAirVelocity_pos (i : Input)
    (hval : ∀ v, i.airVelocity = some v → 0 < v) :
    0 < (effectiveAirVelocity i : ℝ) := by
  have : 0 < effectiveAirVelocity i := by
    unfold effectiveAirVelocity
    cases hav : i.airVelocity with
    | none => norm_num
    | some v =>
        by_cases hz : v = 0
        · simp [hz]
        · simpa [hz] using hval v hav
  exact_mod_cast this

lemma Dh_pos (i : Input) (hT : i.ambientTemp < i.maxSurfaceTemp)
    (hTa : -(mkRat 27315 100) < i.ambientTemp) (hL : 0 < i.length)
    (hH : 0 < i.height) : 0 < Dh i := by
  have h1 := sopt_pos i hT hTa hL
  have h2 := H_pos i hH
  simp only [Dh]
  positivity

lemma h2_pos (i : Input) (hv : validateAllInputs i = true)
    (hT : i.ambientTemp < i.maxSurfaceTemp)
    (hTa : -(mkRat 27315 100) < i.ambientTemp) : 0 < h2 i := by
  have hL := validate_length_pos i hv
  have hH := validate_height_pos i hv
  have hsopt := sopt_pos i hT hTa hL
  have hk : (0 : ℝ) < k := by norm_num [k]
  have hnu : (0 : ℝ) < nu := by norm_num [nu]
  have halpha : (0 : ℝ) < alpha := by norm_num [alpha]
  have hPr : 0 < Pr := by simp only [Pr]; positivity
  cases hct : i.convectionType with
  | natural =>
      simp only [h2, hct]
      positivity
  | forced =>
      have hdh := Dh_pos i hT hTa hL hH
      have hveff := effectiveAirVelocity_pos i
        (fun v hav => validate_airVelocity_pos i v hv hav hct)
      have hReCh : 0 < ReChannel i := by
        simp only [ReChannel]; positivity
      simp only [h2, hct]
      have hw := Real.rpow_pos_of_pos hReCh (0.8 : ℝ)
      have hz := Real.rpow_pos_of_pos hPr (0.4 : ℝ)
      positivity

lemma A1_pos (i : Input) (hv : validateAllInputs i = true) : 0 < A1 i := by
  have hL := L_pos i (validate_length_pos i hv)
  have hH := H_pos i (validate_height_pos i hv)
  have ht := t_pos i (validate_finThickness_pos i hv)
  simp only [A1]
  positivity

lemma A2_pos (i : Input) (hv : validateAllInputs i = true)
    (hT : i.ambientTemp < i.maxSurfaceTemp)
    (hTa : -(mkRat 27315 100) < i.ambientTemp)
    (hbh : i.baseThickness < i.height) : 0 < A2 i := by
  have hL := L_pos i (validate_length_pos i hv)
  have hH := H_pos i (validate_height_pos i hv)
  have ht := t_pos i (validate_finThickness_pos i hv)
  have hb := b_pos i (validate_baseThickness_pos i hv)
  have hbH := b_lt_H i hbh
  have hsopt := sopt_pos i hT hTa (validate_length_pos i hv)
  have hgap : 0 < H i - b i := sub_pos.mpr hbH
  simp only [A2]
  have h1 : 0 < L i * (2 * (H i - b i) + sopt i) := by positivity
  have h2 : 0 < 2 * (t i * H i + sopt i * b i) := by positivity
  have h3 : 0 < t i * L i := by positivity
  linarith

lemma Ar2_pos (i : Input) (hv : validateAllInputs i = true)
    (hT : i.ambientTemp < i.maxSurfaceTemp)
    (hTa : -(mkRat 27315 100) < i.ambientTemp) : 0 < Ar2 i := by
  have hL := L_pos i (validate_length_pos i hv)
  have hH := H_pos i (validate_height_pos i hv)
  have ht := t_pos i (validate_finThickness_pos i hv)
  have hb := b_pos i (validate_baseThickness_pos i hv)
  have hsopt := sopt_pos i hT hTa (validate_length_pos i hv)
  simp only [Ar2]
  positivity

lemma D4_pos (i : Input) (hT : i.ambientTemp < i.maxSurfaceTemp)
    (hTa : -(mkRat 27315 100) < i.ambientTemp) :
    0 < Ts i ^ (4 : ℕ) - Tamb i ^ (4 : ℕ) := by
  have h1 := Tamb_pos i hTa
  have h2 := Tamb_lt_Ts i hT
  have := pow_lt_pow_left₀ h2 h1.le (n := 4) (by norm_num)
  linarith

lemma Qc2_pos (i : Input) (hv : validateAllInputs i = true)
    (hT : i.ambientTemp < i.maxSurfaceTemp)
    (hTa : -(mkRat 27315 100) < i.ambientTemp)
    (hbh : i.baseThickness < i.height) : 0 < Qc2 i := by
  have h1 := h2_pos i hv hT hTa
  have h2 := A2_pos i hv hT hTa hbh
  have h3 := deltaT_pos i hT
  simp only [Qc2]
  positivity

lemma Qr2_nonneg (i : Input) (hv : validateAllInputs i = true)
    (hT : i.ambientTemp < i.maxSurfaceTemp)
    (hTa : -(mkRat 27315 100) < i.ambientTemp) : 0 ≤ Qr2 i := by
  have h1 := (validate_emissivity_mem i hv).1
  have he : (0 : ℝ) ≤ (i.emissivity : ℝ) := by exact_mod_cast h1
  have h2 := Ar2_pos i hv hT hTa
  have h3 := D4_pos i hT hTa
  have hsig : (0 : ℝ) ≤ sigma := by norm_num [sigma]
  simp only [Qr2]
  positivity

lemma den_pos (i : Input) (hv : validateAllInputs i = true)
    (hT : i.ambientTemp < i.maxSurfaceTemp)
    (hTa : -(mkRat 27315 100) < i.ambientTemp)
    (hbh : i.baseThickness < i.height) : 0 < Qr2 i + Qc2 i := by
  have h1 := Qc2_pos i hv hT hTa hbh
  have h2 := Qr2_nonneg i hv hT hTa
  linarith

/-- Core arithmetic of the fin-count formula: increasing the coefficient
that is subtracted in the numerator and added in the denominator can
only decrease `max 1 ⌈1 + num/den⌉` (when it does not, both sides are
clamped at the minimum of one fin). -/
lemma finCount_aux {P c d R1 R2 x y : ℝ} (hd : 0 < d) (hR1 : 0 ≤ R1)
    (hR2 : 0 ≤ R2) (hx : 0 ≤ x) (hxy : x ≤ y) :
    max 1 ⌈1 + (P - y * R1 - c) / (y * R2 + d)⌉ ≤
      max 1 ⌈1 + (P - x * R1 - c) / (x * R2 + d)⌉ := by
  have hy : 0 ≤ y := hx.trans hxy
  have hd1 : 0 < x * R2 + d := by nlinarith [mul_nonneg hx hR2]
  have hd2 : 0 < y * R2 + d := by nlinarith [mul_nonneg hy hR2]
  have hdd : x * R2 + d ≤ y * R2 + d := by nlinarith [mul_le_mul_of_nonneg_right hxy hR2]
  have hnum : P - y * R1 - c ≤ P - x * R1 - c := by
    nlinarith [mul_le_mul_of_nonneg_right hxy hR1]
  have key : (P - y * R1 - c) / (y * R2 + d) ≤ (P - x * R1 - c) / (x * R2 + d) →
      max 1 ⌈1 + (P - y * R1 - c) / (y * R2 + d)⌉ ≤
        max 1 ⌈1 + (P - x * R1 - c) / (x * R2 + d)⌉ := fun hfrac =>
    max_le_max le_rfl (Int.ceil_le_ceil (by linarith))
  rcases le_or_lt 0 (P - y * R1 - c) with hn2 | hn2
  · refine key ?_
    calc (P - y * R1 - c) / (y * R2 + d)
        ≤ (P - y * R1 - c) / (x * R2 + d) :=
          div_le_div_of_nonneg_left hn2 hd1 hdd
      _ ≤ (P - x * R1 - c) / (x * R2 + d) := by gcongr
  · rcases lt_or_le 0 (P - x * R1 - c) with hn1 | hn1
    · refine key ?_
      have h1 : (P - y * R1 - c) / (y * R2 + d) < 0 := div_neg_of_neg_of_pos hn2 hd2
      have h2 : 0 < (P - x * R1 - c) / (x * R2 + d) := div_pos hn1 hd1
      linarith
    · have hle : ⌈1 + (P - y * R1 - c) / (y * R2 + d)⌉ ≤ (1 : ℤ) := by
        rw [Int.ceil_le]
        have : (P - y * R1 - c) / (y * R2 + d) ≤ 0 :=
          div_nonpos_iff.mpr (Or.inr ⟨hn2.le, hd2.le⟩)
        push_cast
        linarith
      calc max 1 ⌈1 + (P - y * R1 - c) / (y * R2 + d)⌉ = 1 := max_eq_left hle
        _ ≤ max 1 ⌈1 + (P - x * R1 - c) / (x * R2 + d)⌉ := le_max_left _ _

/-! ### The claims -/

/-- C1: for every input accepted by the validation pass, the calculator
returns a result whose fin count is exactly
`max(1, ceil(1 + (power - Qr1 - Qc1) / (Qr2 + Qc2)))`, hence clamped to
at least one fin even when the closed-form expression is smaller. -/
theorem C1_numberOfFins_formula (i : Input)
    (hv : validateAllInputs i = true) :
    ∃ r, calculateHeatSink i = some r ∧
      r.numberOfFins =
        max 1 ⌈1 + ((i.power : ℝ) - Qr1 i - Qc1 i) / (Qr2 i + Qc2 i)⌉ ∧
      1 ≤ r.numberOfFins :=
  ⟨computeRaw i, by simp [calculateHeatSink, hv], rfl, le_max_left _ _⟩

/-- C1 witness: scenario A passes validation, so the formula theorem
applies to it. -/
theorem C1_numberOfFins_formula_witness :
    ∃ r, calculateHeatSink scenarioA = some r ∧
      r.numberOfFins =
        max 1 ⌈1 + ((scenarioA.power : ℝ) - Qr1 scenarioA - Qc1 scenarioA) /
          (Qr2 scenarioA + Qc2 scenarioA)⌉ ∧
      1 ≤ r.numberOfFins :=
  C1_numberOfFins_formula scenarioA (by decide)

/-- C3: the optimal fin spacing follows the closed-form natural
convection correlation, the exported spacing is `sopt * 1000`
millimeters, and both are computed by the same formula regardless of
the convection type. -/
theorem C3_spacing_formula (i : Input) (ct : ConvectionType) :
    sopt i = 2.71 * (g * beta i * deltaT i / (L i * alpha * nu)) ^ (-0.25 : ℝ) ∧
    spacingMm i = sopt i * 1000 ∧
    sopt { i with convectionType := ct } = sopt i ∧
    spacingMm { i with convectionType := ct } = spacingMm i :=
  ⟨rfl, rfl, rfl, rfl⟩

/-- C7: the returned width is the rounded value of
`(numberOfFins - 1) * spacing + numberOfFins * finThickness`, the
returned spacing is the rounded `sopt * 1000`, and rounding the
returned values again to one decimal place leaves them unchanged. -/
theorem C7_width_and_rounding (i : Input)
    (hv : validateAllInputs i = true) :
    ∃ r, calculateHeatSink i = some r ∧
      r.width = round1 (((numberOfFins i : ℝ) - 1) * spacingMm i +
        (numberOfFins i : ℝ) * (i.finThickness : ℝ)) ∧
      r.spacing = round1 (spacingMm i) ∧
      r.numberOfFins = numberOfFins i ∧
      round1 r.width = r.width ∧ round1 r.spacing = r.spacing :=
  ⟨computeRaw i, by simp [calculateHeatSink, hv], rfl, rfl, rfl,
    round1_idem _, round1_idem _⟩

/-- C7 witness: the rounding theorem applied at scenario A. -/
theorem C7_width_and_rounding_witness :
    ∃ r, calculateHeatSink scenarioA = some r ∧
      r.width = round1 (((numberOfFins scenarioA : ℝ) - 1) * spacingMm scenarioA +
        (numberOfFins scenarioA : ℝ) * (scenarioA.finThickness : ℝ)) ∧
      r.spacing = round1 (spacingMm scenarioA) ∧
      r.numberOfFins = numberOfFins scenarioA ∧
      round1 r.width = r.width ∧ round1 r.spacing = r.spacing :=
  C7_width_and_rounding scenarioA (by decide)

/-- C2 fails on the code: an input with `deltaT = -50 ≤ 0` (ambient
300 °C, surface 250 °C) passes the validation pass, because both
temperatures take the out-of-range warning early-returns and the
temperature-order error checks are never reached; the calculation then
proceeds and produces a result record instead of failing before any
power computation (in IEEE arithmetic its fields are all `NaN`). -/
theorem C2_deltaT_nonpositive_not_rejected :
    validateAllInputs badC2 = true ∧ deltaT badC2 ≤ 0 ∧
      ∃ r, calculateHeatSink badC2 = some r :=
  ⟨by decide, by norm_num [deltaT, badC2, scenarioA],
    ⟨computeRaw badC2,
      by simp [calculateHeatSink, show validateAllInputs badC2 = true by decide]⟩⟩

/-- C9 counterexample: a forced-convection input whose optional
`airVelocity` is absent passes validation (the loop skips non-number
fields) and the calculation produces a result, contradicting the claim
that a missing air velocity in forced mode fails. -/
theorem C9_missing_airVelocity_not_rejected :
    cexC9.convectionType = ConvectionType.forced ∧
      cexC9.airVelocity = none ∧
      ∃ r, calculateHeatSink cexC9 = some r :=
  ⟨rfl, rfl,
    ⟨computeRaw cexC9,
      by simp [calculateHeatSink, show validateAllInputs cexC9 = true by decide]⟩⟩

/-- C9 amended: in forced mode an input whose `airVelocity` is present
and non-positive fails validation, so the calculation produces no
result; a missing `airVelocity` is not rejected (the pipeline
substitutes 1.0 m/s instead). -/
theorem C9_forced_nonpositive_airVelocity_fails (i : Input) (v : ℚ)
    (hf : i.convectionType = .forced) (hav : i.airVelocity = some v)
    (hvel : v ≤ 0) : calculateHeatSink i = none := by
  have herr : validateAllInputs i = false := by
    rw [validateAllInputs, Bool.not_eq_false']
    rw [List.any_eq_true]
    refine ⟨(.airVelocity, v), by simp [numericFieldValues, hav], ?_⟩
    simp [validateInput, hf, if_pos hvel]
  simp [calculateHeatSink, herr]

/-- C9 witness: forced convection with `airVelocity = 0` produces no
result. -/
theorem C9_forced_nonpositive_airVelocity_fails_witness :
    calculateHeatSink cexC9v0 = none :=
  C9_forced_nonpositive_airVelocity_fails cexC9v0 0 rfl rfl (by decide)

/-- C5: holding everything else fixed, a larger power never yields a
smaller fin count.  The validity hypotheses are the specification's
data-model invariants: validation passes for both inputs, the
temperatures are ordered, the ambient temperature is above absolute
zero and the height exceeds the base thickness. -/
theorem C5_power_monotone (i : Input) (p₁ p₂ : ℚ)
    (hv₁ : validateAllInputs { i with power := p₁ } = true)
    (hv₂ : validateAllInputs { i with power := p₂ } = true)
    (hT : i.ambientTemp < i.maxSurfaceTemp)
    (hTa : -(mkRat 27315 100) < i.ambientTemp)
    (hbh : i.baseThickness < i.height)
    (hp : p₁ < p₂) :
    numberOfFins { i with power := p₁ } ≤ numberOfFins { i with power := p₂ } := by
  have hden : 0 < Qr2 { i with power := p₁ } + Qc2 { i with power := p₁ } :=
    den_pos { i with power := p₁ } hv₁ hT hTa hbh
  unfold numberOfFins
  refine max_le_max le_rfl (Int.ceil_le_ceil ?_)
  apply add_le_add_left
  rw [show Qr1 { i with power := p₂ } = Qr1 { i with power := p₁ } from rfl,
      show Qc1 { i with power := p₂ } = Qc1 { i with power := p₁ } from rfl,
      show Qr2 { i with power := p₂ } = Qr2 { i with power := p₁ } from rfl,
      show Qc2 { i with power := p₂ } = Qc2 { i with power := p₁ } from rfl]
  have hcast : ((p₁ : ℚ) : ℝ) ≤ ((p₂ : ℚ) : ℝ) := by exact_mod_cast hp.le
  gcongr

/-- C5 witness: scenario C (scenario A with doubled power) needs at
least as many fins as scenario A. -/
theorem C5_power_monotone_witness :
    numberOfFins { scenarioA with power := 10 } ≤
      numberOfFins { scenarioA with power := 20 } :=
  C5_power_monotone scenarioA 10 20 (by decide) (by decide) (by decide)
    (by decide) (by decide) (by decide)

/-- C6: holding everything else fixed, a larger emissivity (within
`[0,1]`) never yields a larger fin count. -/
theorem C6_emissivity_antitone (i : Input) (e₁ e₂ : ℚ)
    (hv₁ : validateAllInputs { i with emissivity := e₁ } = true)
    (hv₂ : validateAllInputs { i with emissivity := e₂ } = true)
    (hT : i.ambientTemp < i.maxSurfaceTemp)
    (hTa : -(mkRat 27315 100) < i.ambientTemp)
    (hbh : i.baseThickness < i.height)
    (he : e₁ < e₂) :
    numberOfFins { i with emissivity := e₂ } ≤
      numberOfFins { i with emissivity := e₁ } := by
  have hQr1 : ∀ e : ℚ, Qr1 { i with emissivity := e } =
      (e : ℝ) * (2 * sigma * A1 i * (Ts i ^ (4 : ℕ) - Tamb i ^ (4 : ℕ))) := by
    intro e
    simp only [Qr1]
    rw [show A1 { i with emissivity := e } = A1 i from rfl,
        show Ts { i with emissivity := e } = Ts i from rfl,
        show Tamb { i with emissivity := e } = Tamb i from rfl]
    ring
  have hQr2 : ∀ e : ℚ, Qr2 { i with emissivity := e } =
      (e : ℝ) * (sigma * Ar2 i * (Ts i ^ (4 : ℕ) - Tamb i ^ (4 : ℕ))) := by
    intro e
    simp only [Qr2]
    rw [show Ar2 { i with emissivity := e } = Ar2 i from rfl,
        show Ts { i with emissivity := e } = Ts i from rfl,
        show Tamb { i with emissivity := e } = Tamb i from rfl]
    ring
  have hd : 0 < Qc2 i := Qc2_pos { i with emissivity := e₁ } hv₁ hT hTa hbh
  have hA1 : 0 < A1 i := A1_pos { i with emissivity := e₁ } hv₁
  have hAr2 : 0 < Ar2 i := Ar2_pos { i with emissivity := e₁ } hv₁ hT hTa
  have hD4 : 0 < Ts i ^ (4 : ℕ) - Tamb i ^ (4 : ℕ) := D4_pos i hT hTa
  have hsig : (0 : ℝ) < sigma := by norm_num [sigma]
  have hR1nn : 0 ≤ 2 * sigma * A1 i * (Ts i ^ (4 : ℕ) - Tamb i ^ (4 : ℕ)) := by
    positivity
  have hR2nn : 0 ≤ sigma * Ar2 i * (Ts i ^ (4 : ℕ) - Tamb i ^ (4 : ℕ)) := by
    positivity
  have he₁nn : 0 ≤ (e₁ : ℝ) := by
    exact_mod_cast (validate_emissivity_mem { i with emissivity := e₁ } hv₁).1
  have hee : (e₁ : ℝ) ≤ (e₂ : ℝ) := by exact_mod_cast he.le
  have g₂ : numberOfFins { i with emissivity := e₂ } =
      max 1 ⌈1 + ((i.power : ℝ) -
        (e₂ : ℝ) * (2 * sigma * A1 i * (Ts i ^ (4 : ℕ) - Tamb i ^ (4 : ℕ))) - Qc1 i) /
        ((e₂ : ℝ) * (sigma * Ar2 i * (Ts i ^ (4 : ℕ) - Tamb i ^ (4 : ℕ))) + Qc2 i)⌉ := by
    show max 1 ⌈1 + ((i.power : ℝ) - Qr1 { i with emissivity := e₂ } -
        Qc1 { i with emissivity := e₂ }) /
        (Qr2 { i with emissivity := e₂ } + Qc2 { i with emissivity := e₂ })⌉ = _
    rw [hQr1 e₂, hQr2 e₂,
        show Qc1 { i with emissivity := e₂ } = Qc1 i from rfl,
        show Qc2 { i with emissivity := e₂ } = Qc2 i from rfl]
  have g₁ : numberOfFins { i with emissivity := e₁ } =
      max 1 ⌈1 + ((i.power : ℝ) -
        (e₁ : ℝ) * (2 * sigma * A1 i * (Ts i ^ (4 : ℕ) - Tamb i ^ (4 : ℕ))) - Qc1 i) /
        ((e₁ : ℝ) * (sigma * Ar2 i * (Ts i ^ (4 : ℕ) - Tamb i ^ (4 : ℕ))) + Qc2 i)⌉ := by
    show max 1 ⌈1 + ((i.power : ℝ) - Qr1 { i with emissivity := e₁ } -
        Qc1 { i with emissivity := e₁ }) /
        (Qr2 { i with emissivity := e₁ } + Qc2 { i with emissivity := e₁ })⌉ = _
    rw [hQr1 e₁, hQr2 e₁,
        show Qc1 { i with emissivity := e₁ } = Qc1 i from rfl,
        show Qc2 { i with emissivity := e₁ } = Qc2 i from rfl]
  rw [g₂, g₁]
  exact finCount_aux hd hR1nn hR2nn he₁nn hee

/-- C6 witness: raising scenario A's emissivity from 0.5 to the table
value 0.82 does not increase the fin count. -/
theorem C6_emissivity_antitone_witness :
    numberOfFins { scenarioA with emissivity := mkRat 82 100 } ≤
      numberOfFins { scenarioA with emissivity := mkRat 5 10 } :=
  C6_emissivity_antitone scenarioA (mkRat 5 10) (mkRat 82 100) (by decide)
    (by decide) (by decide) (by decide) (by decide) (by decide)

/-- C10: in the forced branch of the numeric pipeline, a missing
`airVelocity` is computed with the substituted value 1.0 m/s (and a
present value of 0 likewise substitutes 1.0): the Reynolds numbers,
both heat transfer coefficients and the whole calculation agree with
those at `airVelocity = 1.0`. -/
theorem C10_airVelocity_fallback (i : Input)
    (hf : i.convectionType = .forced) :
    effectiveAirVelocity { i with airVelocity := none } = 1 ∧
    effectiveAirVelocity { i with airVelocity := some 0 } = 1 ∧
    Re { i with airVelocity := none } = Re { i with airVelocity := some 1 } ∧
    ReChannel { i with airVelocity := none } =
      ReChannel { i with airVelocity := some 1 } ∧
    h1 { i with airVelocity := none } = h1 { i with airVelocity := some 1 } ∧
    h2 { i with airVelocity := none } = h2 { i with airVelocity := some 1 } ∧
    calculateHeatSink { i with airVelocity := none } =
      calculateHeatSink { i with airVelocity := some 1 } := by
  have hveff : effectiveAirVelocity { i with airVelocity := none } =
      effectiveAirVelocity { i with airVelocity := some 1 } := by
    simp [effectiveAirVelocity]
  have hRe : Re { i with airVelocity := none } =
      Re { i with airVelocity := some 1 } := by
    simp only [Re, hveff]; rfl
  have hReCh : ReChannel { i with airVelocity := none } =
      ReChannel { i with airVelocity := some 1 } := by
    simp only [ReChannel, hveff]; rfl
  have hh1 : h1 { i with airVelocity := none } =
      h1 { i with airVelocity := some 1 } := by
    simp only [h1, hf, hRe]; rfl
  have hh2 : h2 { i with airVelocity := none } =
      h2 { i with airVelocity := some 1 } := by
    simp only [h2, hf, hReCh]; rfl
  have hQc1 : Qc1 { i with airVelocity := none } =
      Qc1 { i with airVelocity := some 1 } := by
    simp only [Qc1, hh1]; rfl
  have hQc2 : Qc2 { i with airVelocity := none } =
      Qc2 { i with airVelocity := some 1 } := by
    simp only [Qc2, hh2]; rfl
  have hfins : numberOfFins { i with airVelocity := none } =
      numberOfFins { i with airVelocity := some 1 } := by
    simp only [numberOfFins, hQc1, hQc2]; rfl
  have hraw : computeRaw { i with airVelocity := none } =
      computeRaw { i with airVelocity := some 1 } := by
    simp only [computeRaw, widthMm, hfins]; rfl
  have hval : validateAllInputs { i with airVelocity := none } =
      validateAllInputs { i with airVelocity := some 1 } := by
    simp [validateAllInputs, numericFieldValues, validateInput, hf,
      show ¬((1 : ℚ) ≤ 0) by norm_num, show ¬((50 : ℚ) < 1) by norm_num]
  refine ⟨rfl, by simp [effectiveAirVelocity], hRe, hReCh, hh1, hh2, ?_⟩
  unfold calculateHeatSink
  rw [hval, hraw]

/-- C10 witness: the fallback theorem applied to the forced-convection
input missing its air velocity. -/
theorem C10_airVelocity_fallback_witness :
    effectiveAirVelocity { cexC9 with airVelocity := none } = 1 ∧
    effectiveAirVelocity { cexC9 with airVelocity := some 0 } = 1 ∧
    Re { cexC9 with airVelocity := none } =
      Re { cexC9 with airVelocity := some 1 } ∧
    ReChannel { cexC9 with airVelocity := none } =
      ReChannel { cexC9 with airVelocity := some 1 } ∧
    h1 { cexC9 with airVelocity := none } =
      h1 { cexC9 with airVelocity := some 1 } ∧
    h2 { cexC9 with airVelocity := none } =
      h2 { cexC9 with airVelocity := some 1 } ∧
    calculateHeatSink { cexC9 with airVelocity := none } =
      calculateHeatSink { cexC9 with airVelocity := some 1 } :=
  C10_airVelocity_fallback cexC9 rfl



lemma scenarioA_sopt_u :
    ∃ u : ℝ, sopt scenarioA = 2.71 * u ∧
      (0.00176093 : ℝ) < u ∧ u < (0.00176097 : ℝ) := by
  have hX : g * beta scenarioA * deltaT scenarioA / (L scenarioA * alpha * nu) =
      ((367875000000000000 / 3537457 : ℝ)) := by
    norm_num [g, beta, Tavg, Ts, Tamb, deltaT, L, alpha, nu, scenarioA]
  have hXnn : (0 : ℝ) ≤ (367875000000000000 / 3537457 : ℝ) := by norm_num
  have hq1 : (567.87 : ℝ) <
      (367875000000000000 / 3537457 : ℝ) ^ (((1 : ℕ) : ℝ) / ((4 : ℕ) : ℝ)) :=
    lt_rpow_div 1 4 (by norm_num) (by norm_num) hXnn le_rfl (by norm_num)
  have hq2 : (367875000000000000 / 3537457 : ℝ) ^ (((1 : ℕ) : ℝ) / ((4 : ℕ) : ℝ)) <
      (567.88 : ℝ) :=
    rpow_div_lt 1 4 (by norm_num) hXnn (by norm_num) le_rfl (by norm_num)
  set q : ℝ := (367875000000000000 / 3537457 : ℝ) ^ (((1 : ℕ) : ℝ) / ((4 : ℕ) : ℝ)) with hqdef
  have hq0 : 0 < q := lt_trans (by norm_num) hq1
  have hqu : q * q⁻¹ = 1 := mul_inv_cancel₀ hq0.ne'
  have hu0 : 0 < q⁻¹ := inv_pos.mpr hq0
  refine ⟨q⁻¹, ?_, ?_, ?_⟩
  · unfold sopt
    rw [hX, Real.rpow_neg hXnn,
      show (0.25 : ℝ) = ((1 : ℕ) : ℝ) / ((4 : ℕ) : ℝ) by norm_num]
  · nlinarith [hqu, mul_pos (sub_pos.mpr hq2) hu0]
  · nlinarith [hqu, mul_pos (sub_pos.mpr hq1) hu0]



set_option maxHeartbeats 1600000 in
/-- Concrete evaluation: scenario A (natural convection) requires 7 fins. -/
lemma numberOfFins_scenarioA_eq : numberOfFins scenarioA = 7 := by
  obtain ⟨u, hsu, hu1, hu2⟩ := scenarioA_sopt_u
  have hu0 : (0 : ℝ) < u := lt_trans (by norm_num) hu1
  have hL : L scenarioA = 0.05 := by norm_num [L, scenarioA]
  have hH : H scenarioA = 0.025 := by norm_num [H, scenarioA]
  have ht : t scenarioA = 0.002 := by norm_num [t, scenarioA]
  have hb : b scenarioA = 0.003 := by norm_num [b, scenarioA]
  have hdT : deltaT scenarioA = 60 := by norm_num [deltaT, scenarioA]
  have hTs : Ts scenarioA = 358.15 := by norm_num [Ts, scenarioA]
  have hTamb : Tamb scenarioA = 298.15 := by norm_num [Tamb, scenarioA]
  have hEm : (scenarioA.emissivity : ℝ) = 0.82 := by
    norm_num [scenarioA, Rat.mkRat_eq_div]
  have hPow : (scenarioA.power : ℝ) = 10 := by norm_num [scenarioA]
  have hA1 : A1 scenarioA = 0.00145 := by
    unfold A1; rw [hL, hH, ht]; norm_num
  -- external coefficient: h1 = 1.42 * 1200^(1/4)
  have hh1eq : h1 scenarioA =
      1.42 * (deltaT scenarioA / L scenarioA) ^ (0.25 : ℝ) := rfl
  have hdTL : deltaT scenarioA / L scenarioA = 1200 := by
    rw [hdT, hL]; norm_num
  have hp1 : (5.8856 : ℝ) < (1200 : ℝ) ^ (((1 : ℕ) : ℝ) / ((4 : ℕ) : ℝ)) :=
    lt_rpow_div 1 4 (by norm_num) (by norm_num) (by norm_num) le_rfl (by norm_num)
  have hp2 : (1200 : ℝ) ^ (((1 : ℕ) : ℝ) / ((4 : ℕ) : ℝ)) < 5.8857 :=
    rpow_div_lt 1 4 (by norm_num) (by norm_num) (by norm_num) le_rfl (by norm_num)
  have hh1lo : (8.3575 : ℝ) < h1 scenarioA := by
    rw [hh1eq, hdTL, show (0.25 : ℝ) = ((1 : ℕ) : ℝ) / ((4 : ℕ) : ℝ) by norm_num]
    linarith only [hp1]
  have hh1hi : h1 scenarioA < 8.3577 := by
    rw [hh1eq, hdTL, show (0.25 : ℝ) = ((1 : ℕ) : ℝ) / ((4 : ℕ) : ℝ) by norm_num]
    linarith only [hp2]
  have hQc1eq : Qc1 scenarioA = 2 * h1 scenarioA * A1 scenarioA * deltaT scenarioA := rfl
  have hQc1lo : (1.4542 : ℝ) < Qc1 scenarioA := by
    rw [hQc1eq, hA1, hdT]; linarith only [hh1lo]
  have hQc1hi : Qc1 scenarioA < 1.4543 := by
    rw [hQc1eq, hA1, hdT]; linarith only [hh1hi]
  have hQr1eq : Qr1 scenarioA = 2 * (scenarioA.emissivity : ℝ) * sigma * A1 scenarioA *
      (Ts scenarioA ^ (4 : ℕ) - Tamb scenarioA ^ (4 : ℕ)) := rfl
  have hQr1lo : (1.15302 : ℝ) < Qr1 scenarioA := by
    rw [hQr1eq, hEm, hA1, hTs, hTamb]; norm_num [sigma]
  have hQr1hi : Qr1 scenarioA < 1.15303 := by
    rw [hQr1eq, hEm, hA1, hTs, hTamb]; norm_num [sigma]
  have hA2 : A2 scenarioA = 0.0024 + 0.056 * (2.71 * u) := by
    unfold A2; rw [hL, hH, ht, hb, hsu]; ring
  have hAr2 : Ar2 scenarioA = 0.0002 + 0.056 * (2.71 * u) := by
    unfold Ar2; rw [hL, hH, ht, hb, hsu]; ring
  have hs0 : (0 : ℝ) < 2.71 * u := by linarith only [hu1]
  have hh2eq : h2 scenarioA = 1.31 * k / sopt scenarioA := rfl
  have hQc2eq : Qc2 scenarioA = h2 scenarioA * A2 scenarioA * deltaT scenarioA := rfl
  have hQc2expr : Qc2 scenarioA =
      (1.31 * k * (0.0024 + 0.056 * (2.71 * u)) * 60) / (2.71 * u) := by
    rw [hQc2eq, hh2eq, hA2, hdT, hsu]; ring
  have hQc2lo : (1.15536 : ℝ) < Qc2 scenarioA := by
    rw [hQc2expr, lt_div_iff₀ hs0]; norm_num [k]; linarith only [hu2]
  have hQc2hi : Qc2 scenarioA < 1.1554 := by
    rw [hQc2expr, div_lt_iff₀ hs0]; norm_num [k]; linarith only [hu1]
  have hQr2eq : Qr2 scenarioA = (scenarioA.emissivity : ℝ) * sigma * Ar2 scenarioA *
      (Ts scenarioA ^ (4 : ℕ) - Tamb scenarioA ^ (4 : ℕ)) := rfl
  have hQr2lo : (0.18576 : ℝ) < Qr2 scenarioA := by
    rw [hQr2eq, hEm, hAr2, hTs, hTamb]; norm_num [sigma]; linarith only [hu1]
  have hQr2hi : Qr2 scenarioA < 0.18578 := by
    rw [hQr2eq, hEm, hAr2, hTs, hTamb]; norm_num [sigma]; linarith only [hu2]
  have hden0 : (0 : ℝ) < Qr2 scenarioA + Qc2 scenarioA := by linarith
  have hF1 : (6 : ℝ) < 1 + ((scenarioA.power : ℝ) - Qr1 scenarioA - Qc1 scenarioA) /
      (Qr2 scenarioA + Qc2 scenarioA) := by
    rw [hPow]
    have h5 : 5 * (Qr2 scenarioA + Qc2 scenarioA) < 10 - Qr1 scenarioA - Qc1 scenarioA := by
      linarith
    have := (lt_div_iff₀ hden0).mpr h5
    linarith
  have hF2 : 1 + ((scenarioA.power : ℝ) - Qr1 scenarioA - Qc1 scenarioA) /
      (Qr2 scenarioA + Qc2 scenarioA) ≤ 7 := by
    rw [hPow]
    have h6 : 10 - Qr1 scenarioA - Qc1 scenarioA ≤ 6 * (Qr2 scenarioA + Qc2 scenarioA) := by
      linarith
    have := (div_le_iff₀ hden0).mpr h6
    linarith
  have hceil : ⌈(1 : ℝ) + ((scenarioA.power : ℝ) - Qr1 scenarioA - Qc1 scenarioA) /
      (Qr2 scenarioA + Qc2 scenarioA)⌉ = (7 : ℤ) := by
    rw [Int.ceil_eq_iff]
    constructor
    · push_cast; linarith
    · push_cast; linarith
  unfold numberOfFins
  rw [hceil]
  norm_num



set_option maxHeartbeats 1600000 in
/-- Concrete evaluation: scenario B (forced convection at 2 m/s)
requires 3 fins. -/
lemma numberOfFins_scenarioB_eq : numberOfFins scenarioB = 3 := by
  obtain ⟨u, hsuA, hu1, hu2⟩ := scenarioA_sopt_u
  have hsu : sopt scenarioB = 2.71 * u := hsuA
  have hu0 : (0 : ℝ) < u := lt_trans (by norm_num) hu1
  have hL : L scenarioB = 0.05 := by norm_num [L, scenarioB, scenarioA]
  have hH : H scenarioB = 0.025 := by norm_num [H, scenarioB, scenarioA]
  have ht : t scenarioB = 0.002 := by norm_num [t, scenarioB, scenarioA]
  have hb : b scenarioB = 0.003 := by norm_num [b, scenarioB, scenarioA]
  have hdT : deltaT scenarioB = 60 := by norm_num [deltaT, scenarioB, scenarioA]
  have hTs : Ts scenarioB = 358.15 := by norm_num [Ts, scenarioB, scenarioA]
  have hTamb : Tamb scenarioB = 298.15 := by norm_num [Tamb, scenarioB, scenarioA]
  have hEm : (scenarioB.emissivity : ℝ) = 0.82 := by
    norm_num [scenarioB, scenarioA, Rat.mkRat_eq_div]
  have hPow : (scenarioB.power : ℝ) = 10 := by norm_num [scenarioB, scenarioA]
  have hA1 : A1 scenarioB = 0.00145 := by
    unfold A1; rw [hL, hH, ht]; norm_num
  have hQr1eq : Qr1 scenarioB = 2 * (scenarioB.emissivity : ℝ) * sigma * A1 scenarioB *
      (Ts scenarioB ^ (4 : ℕ) - Tamb scenarioB ^ (4 : ℕ)) := rfl
  have hQr1lo : (1.15302 : ℝ) < Qr1 scenarioB := by
    rw [hQr1eq, hEm, hA1, hTs, hTamb]; norm_num [sigma]
  have hQr1hi : Qr1 scenarioB < 1.15303 := by
    rw [hQr1eq, hEm, hA1, hTs, hTamb]; norm_num [sigma]
  -- forced-branch external coefficient
  have hveff : ((effectiveAirVelocity scenarioB : ℚ) : ℝ) = 2 := by
    norm_num [effectiveAirVelocity, scenarioB, scenarioA]
  have hh1eq : h1 scenarioB =
      k / L scenarioB * 0.664 * Re scenarioB ^ (0.5 : ℝ) * Pr ^ (0.33 : ℝ) := rfl
  have hReB : Re scenarioB = (312500 / 49 : ℝ) := by
    unfold Re; rw [hveff, hL]; norm_num [nu]
  have hPrEq : Pr = (196 / 275 : ℝ) := by norm_num [Pr, nu, alpha]
  have hu1a : (79.8595 : ℝ) < Re scenarioB ^ (0.5 : ℝ) := by
    rw [hReB, show (0.5 : ℝ) = ((1 : ℕ) : ℝ) / ((2 : ℕ) : ℝ) by norm_num]
    exact lt_rpow_div 1 2 (by norm_num) (by norm_num) (by norm_num) le_rfl (by norm_num)
  have hu1b : Re scenarioB ^ (0.5 : ℝ) < 79.8596 := by
    rw [hReB, show (0.5 : ℝ) = ((1 : ℕ) : ℝ) / ((2 : ℕ) : ℝ) by norm_num]
    exact rpow_div_lt 1 2 (by norm_num) (by norm_num) (by norm_num) le_rfl (by norm_num)
  have hva : (0.89426 : ℝ) < Pr ^ (0.33 : ℝ) := by
    rw [hPrEq, show (0.33 : ℝ) = ((33 : ℕ) : ℝ) / ((100 : ℕ) : ℝ) by norm_num]
    exact lt_rpow_div 33 100 (by norm_num) (by norm_num) (by norm_num) le_rfl (by norm_num)
  have hvb : Pr ^ (0.33 : ℝ) < 0.89427 := by
    rw [hPrEq, show (0.33 : ℝ) = ((33 : ℕ) : ℝ) / ((100 : ℕ) : ℝ) by norm_num]
    exact rpow_div_lt 33 100 (by norm_num) (by norm_num) (by norm_num) le_rfl (by norm_num)
  have hza : (0.87331 : ℝ) < Pr ^ (0.4 : ℝ) := by
    rw [hPrEq, show (0.4 : ℝ) = ((2 : ℕ) : ℝ) / ((5 : ℕ) : ℝ) by norm_num]
    exact lt_rpow_div 2 5 (by norm_num) (by norm_num) (by norm_num) le_rfl (by norm_num)
  have hzb : Pr ^ (0.4 : ℝ) < 0.87332 := by
    rw [hPrEq, show (0.4 : ℝ) = ((2 : ℕ) : ℝ) / ((5 : ℕ) : ℝ) by norm_num]
    exact rpow_div_lt 2 5 (by norm_num) (by norm_num) (by norm_num) le_rfl (by norm_num)
  have hconst1 : k / (0.05 : ℝ) * 0.664 = 0.349264 := by norm_num [k]
  have hprod1 := prod3_bounds (0.349264 : ℝ) (Re scenarioB ^ (0.5 : ℝ)) (Pr ^ (0.33 : ℝ))
    0.349264 79.8595 0.89426 0.349264 79.8596 0.89427
    (by norm_num) (by norm_num) (by norm_num)
    le_rfl hu1a.le hva.le le_rfl hu1b.le hvb.le
  have hh1lo : (24.9425 : ℝ) < h1 scenarioB := by
    rw [hh1eq, hL, hconst1]
    have : (24.9425 : ℝ) < 0.349264 * 79.8595 * 0.89426 := by norm_num
    linarith only [this, hprod1.1]
  have hh1hi : h1 scenarioB < 24.9431 := by
    rw [hh1eq, hL, hconst1]
    have : (0.349264 : ℝ) * 79.8596 * 0.89427 < 24.9431 := by norm_num
    linarith only [this, hprod1.2]
  have hQc1eq : Qc1 scenarioB = 2 * h1 scenarioB * A1 scenarioB * deltaT scenarioB := rfl
  have hQc1lo : (4.33999 : ℝ) < Qc1 scenarioB := by
    rw [hQc1eq, hA1, hdT]; linarith only [hh1lo]
  have hQc1hi : Qc1 scenarioB < 4.34010 := by
    rw [hQc1eq, hA1, hdT]; linarith only [hh1hi]
  -- channel quantities
  have hDh : Dh scenarioB = 4 * (2.71 * u) * 0.025 / (2 * ((2.71 * u) + 0.025)) := by
    unfold Dh; rw [hsu, hH]
  have hden2 : (0 : ℝ) < 2 * ((2.71 * u) + 0.025) := by linarith only [hu1]
  have hnu0 : (0 : ℝ) < nu := by norm_num [nu]
  have hReChEq : ReChannel scenarioB = 2 * Dh scenarioB / nu := by
    unfold ReChannel; rw [hveff]
  have hne1 : (2 * ((2.71 * u) + 0.025) : ℝ) ≠ 0 := ne_of_gt hden2
  have hne2 : nu ≠ 0 := ne_of_gt hnu0
  have hReChExpr : ReChannel scenarioB =
      (2 * (4 * (2.71 * u) * 0.025)) / ((2 * ((2.71 * u) + 0.025)) * nu) := by
    rw [hReChEq, hDh]; field_simp
  have hRCl : (1022.2 : ℝ) < ReChannel scenarioB := by
    rw [hReChExpr, lt_div_iff₀ (mul_pos hden2 hnu0)]
    norm_num [nu]; linarith only [hu1]
  have hRCu : ReChannel scenarioB < 1022.3 := by
    rw [hReChExpr, div_lt_iff₀ (mul_pos hden2 hnu0)]
    norm_num [nu]; linarith only [hu2]
  have hReCh0 : (0 : ℝ) ≤ ReChannel scenarioB := le_trans (by norm_num) hRCl.le
  have hwa : (255.63 : ℝ) < ReChannel scenarioB ^ (0.8 : ℝ) := by
    rw [show (0.8 : ℝ) = ((4 : ℕ) : ℝ) / ((5 : ℕ) : ℝ) by norm_num]
    exact lt_rpow_div 4 5 (by norm_num) (by norm_num) (by norm_num) hRCl.le (by norm_num)
  have hwb : ReChannel scenarioB ^ (0.8 : ℝ) < 255.67 := by
    rw [show (0.8 : ℝ) = ((4 : ℕ) : ℝ) / ((5 : ℕ) : ℝ) by norm_num]
    exact rpow_div_lt 4 5 (by norm_num) hReCh0 (by norm_num) hRCu.le (by norm_num)
  have hDh0 : (0 : ℝ) < 4 * (2.71 * u) * 0.025 := by linarith only [hu1]
  have hkDhExpr : k / Dh scenarioB =
      k * (2 * ((2.71 * u) + 0.025)) / (4 * (2.71 * u) * 0.025) := by
    rw [hDh, div_div_eq_mul_div]
  have hkDl : (3.2814 : ℝ) < k / Dh scenarioB := by
    rw [hkDhExpr, lt_div_iff₀ hDh0]; norm_num [k]; linarith only [hu2]
  have hkDu : k / Dh scenarioB < 3.2817 := by
    rw [hkDhExpr, div_lt_iff₀ hDh0]; norm_num [k]; linarith only [hu1]
  -- internal coefficient
  have hh2eqB : h2 scenarioB = k / Dh scenarioB * 0.023 *
      ReChannel scenarioB ^ (0.8 : ℝ) * Pr ^ (0.4 : ℝ) := rfl
  have hkD23lo : (3.2814 : ℝ) * 0.023 ≤ k / Dh scenarioB * 0.023 := by
    linarith only [hkDl]
  have hkD23hi : k / Dh scenarioB * 0.023 ≤ (3.2817 : ℝ) * 0.023 := by
    linarith only [hkDu]
  have hprod2 := prod3_bounds (k / Dh scenarioB * 0.023) (ReChannel scenarioB ^ (0.8 : ℝ))
    (Pr ^ (0.4 : ℝ)) (3.2814 * 0.023) 255.63 0.87331 (3.2817 * 0.023) 255.67 0.87332
    (by norm_num) (by norm_num) (by norm_num)
    hkD23lo hwa.le hza.le hkD23hi hwb.le hzb.le
  have hh2lo : (16.848 : ℝ) < h2 scenarioB := by
    rw [hh2eqB]
    have : (16.848 : ℝ) < 3.2814 * 0.023 * 255.63 * 0.87331 := by norm_num
    linarith only [this, hprod2.1]
  have hh2hi : h2 scenarioB < 16.854 := by
    rw [hh2eqB]
    have : (3.2817 : ℝ) * 0.023 * 255.67 * 0.87332 < 16.854 := by norm_num
    linarith only [this, hprod2.2]
  -- internal areas and heat flows
  have hA2 : A2 scenarioB = 0.0024 + 0.056 * (2.71 * u) := by
    unfold A2; rw [hL, hH, ht, hb, hsu]; ring
  have hAr2 : Ar2 scenarioB = 0.0002 + 0.056 * (2.71 * u) := by
    unfold Ar2; rw [hL, hH, ht, hb, hsu]; ring
  have hA2lo : (0.0026672 : ℝ) ≤ 0.0024 + 0.056 * (2.71 * u) := by
    linarith only [hu1]
  have hA2hi : (0.0024 : ℝ) + 0.056 * (2.71 * u) ≤ 0.0026673 := by
    linarith only [hu2]
  have hQc2eq : Qc2 scenarioB = h2 scenarioB * A2 scenarioB * deltaT scenarioB := rfl
  have hprod3 := prod3_bounds (h2 scenarioB) (0.0024 + 0.056 * (2.71 * u)) (60 : ℝ)
    16.848 0.0026672 60 16.854 0.0026673 60
    (by norm_num) (by norm_num) (by norm_num)
    hh2lo.le hA2lo le_rfl hh2hi.le hA2hi le_rfl
  have hQc2lo : (2.6960 : ℝ) < Qc2 scenarioB := by
    rw [hQc2eq, hA2, hdT]
    have : (2.6960 : ℝ) < 16.848 * 0.0026672 * 60 := by norm_num
    linarith only [this, hprod3.1]
  have hQc2hi : Qc2 scenarioB < 2.6975 := by
    rw [hQc2eq, hA2, hdT]
    have : (16.854 : ℝ) * 0.0026673 * 60 < 2.6975 := by norm_num
    linarith only [this, hprod3.2]
  have hQr2eq : Qr2 scenarioB = (scenarioB.emissivity : ℝ) * sigma * Ar2 scenarioB *
      (Ts scenarioB ^ (4 : ℕ) - Tamb scenarioB ^ (4 : ℕ)) := rfl
  have hQr2lo : (0.18576 : ℝ) < Qr2 scenarioB := by
    rw [hQr2eq, hEm, hAr2, hTs, hTamb]; norm_num [sigma]; linarith only [hu1]
  have hQr2hi : Qr2 scenarioB < 0.18578 := by
    rw [hQr2eq, hEm, hAr2, hTs, hTamb]; norm_num [sigma]; linarith only [hu2]
  have hden0 : (0 : ℝ) < Qr2 scenarioB + Qc2 scenarioB := by linarith
  have hF1 : (2 : ℝ) < 1 + ((scenarioB.power : ℝ) - Qr1 scenarioB - Qc1 scenarioB) /
      (Qr2 scenarioB + Qc2 scenarioB) := by
    rw [hPow]
    have h1d : 1 * (Qr2 scenarioB + Qc2 scenarioB) < 10 - Qr1 scenarioB - Qc1 scenarioB := by
      linarith
    have := (lt_div_iff₀ hden0).mpr h1d
    linarith
  have hF2 : 1 + ((scenarioB.power : ℝ) - Qr1 scenarioB - Qc1 scenarioB) /
      (Qr2 scenarioB + Qc2 scenarioB) ≤ 3 := by
    rw [hPow]
    have h2d : 10 - Qr1 scenarioB - Qc1 scenarioB ≤ 2 * (Qr2 scenarioB + Qc2 scenarioB) := by
      linarith
    have := (div_le_iff₀ hden0).mpr h2d
    linarith
  have hceil : ⌈(1 : ℝ) + ((scenarioB.power : ℝ) - Qr1 scenarioB - Qc1 scenarioB) /
      (Qr2 scenarioB + Qc2 scenarioB)⌉ = (3 : ℤ) := by
    rw [Int.ceil_eq_iff]
    constructor
    · push_cast; linarith
    · push_cast; linarith
  unfold numberOfFins
  rw [hceil]
  norm_num



/-- C8 fails on the code: the code contains no `Qc2 + Qr2 ≤ 0` guard at
all.  This input (height 1 mm, base thickness 400 mm — the code never
compares the two) passes validation, its inter-fin area `A2` and hence
`Qc2 + Qr2` are negative, and the calculation still produces a result
record (fin count clamped to 1) instead of failing. -/
theorem C8_degenerate_denominator_not_rejected :
    validateAllInputs cexC8 = true ∧ Qr2 cexC8 + Qc2 cexC8 < 0 ∧
      ∃ r, calculateHeatSink cexC8 = some r := by
  refine ⟨by decide, ?_,
    ⟨computeRaw cexC8,
      by simp [calculateHeatSink, show validateAllInputs cexC8 = true by decide]⟩⟩
  obtain ⟨u, hsu, hu1, hu2⟩ := scenarioA_sopt_u
  have hs_eq : sopt cexC8 = 2.71 * u := hsu
  have hs0 : (0 : ℝ) < sopt cexC8 := by rw [hs_eq]; linarith
  have hL : L cexC8 = 0.05 := by norm_num [L, cexC8, scenarioA]
  have hH : H cexC8 = 0.001 := by norm_num [H, cexC8, scenarioA]
  have ht : t cexC8 = 0.002 := by norm_num [t, cexC8, scenarioA]
  have hb : b cexC8 = 0.4 := by norm_num [b, cexC8, scenarioA]
  have hdT : deltaT cexC8 = 60 := by norm_num [deltaT, cexC8, scenarioA]
  have hTs : Ts cexC8 = 358.15 := by norm_num [Ts, cexC8, scenarioA]
  have hTamb : Tamb cexC8 = 298.15 := by norm_num [Tamb, cexC8, scenarioA]
  have hEm : (cexC8.emissivity : ℝ) = 0.82 := by
    norm_num [cexC8, scenarioA, Rat.mkRat_eq_div]
  have hA2 : A2 cexC8 = -0.039796 + 0.85 * (2.71 * u) := by
    unfold A2
    rw [hL, hH, ht, hb, hs_eq]
    ring
  have hA2hi : A2 cexC8 < -0.0357 := by rw [hA2]; nlinarith [hu2]
  have hh2eq : h2 cexC8 = 1.31 * k / sopt cexC8 := rfl
  have hh2lo : (7.21 : ℝ) < h2 cexC8 := by
    rw [hh2eq, lt_div_iff₀ hs0, hs_eq]
    norm_num [k]
    nlinarith [hu2]
  have hQc2eq : Qc2 cexC8 = h2 cexC8 * A2 cexC8 * deltaT cexC8 := rfl
  have hQc2hi : Qc2 cexC8 < -15.44 := by
    rw [hQc2eq, hdT]
    nlinarith [hh2lo, hA2hi]
  have hAr2 : Ar2 cexC8 = 0.000104 + 0.85 * (2.71 * u) := by
    unfold Ar2
    rw [hL, hH, ht, hb, hs_eq]
    ring
  have hQr2eq : Qr2 cexC8 = (cexC8.emissivity : ℝ) * sigma * Ar2 cexC8 *
      (Ts cexC8 ^ (4 : ℕ) - Tamb cexC8 ^ (4 : ℕ)) := rfl
  have hQr2hi : Qr2 cexC8 < 1.66 := by
    rw [hQr2eq, hEm, hAr2, hTs, hTamb]
    norm_num [sigma]
    nlinarith [hu2, hu1]
  linarith


/-- C4 counterexample: the claim says `numberOfFins` and `spacing` are
each different between scenario A (natural) and scenario B (forced),
but the spacing formula does not depend on the convection mode, so the
returned spacings are identical. -/
theorem C4_spacing_not_different :
    ∃ rA rB, calculateHeatSink scenarioA = some rA ∧
      calculateHeatSink scenarioB = some rB ∧ rA.spacing = rB.spacing :=
  ⟨computeRaw scenarioA, computeRaw scenarioB,
    by simp [calculateHeatSink, show validateAllInputs scenarioA = true by decide],
    by simp [calculateHeatSink, show validateAllInputs scenarioB = true by decide],
    rfl⟩

/-- C4 amended: scenario B (forced, 2 m/s) yields a smaller fin count
than scenario A (3 versus 7 fins), while the returned spacing is
identical in the two modes. -/
theorem C4_forced_fewer_fins_spacing_equal :
    ∃ rA rB, calculateHeatSink scenarioA = some rA ∧
      calculateHeatSink scenarioB = some rB ∧
      rA.numberOfFins = 7 ∧ rB.numberOfFins = 3 ∧
      rB.numberOfFins < rA.numberOfFins ∧ rA.spacing = rB.spacing := by
  refine ⟨computeRaw scenarioA, computeRaw scenarioB,
    by simp [calculateHeatSink, show validateAllInputs scenarioA = true by decide],
    by simp [calculateHeatSink, show validateAllInputs scenarioB = true by decide],
    numberOfFins_scenarioA_eq, numberOfFins_scenarioB_eq, ?_, rfl⟩
  show numberOfFins scenarioB < numberOfFins scenarioA
  rw [numberOfFins_scenarioA_eq, numberOfFins_scenarioB_eq]
  norm_num

end HeatSink
